import Mathlib

/-!
Shallow embedding of the `journal` append-only storage engine
(src/journal.c, src/journal.h).  Machine integers are modelled as `Nat`
(with explicit `% 2^64` / two's-complement wrapping where the C code can
overflow), byte strings as `List Nat`, fallible operations as `Except`
or result pairs.  Definitions follow the C source; theorems settle the
frozen claims about the natural-language specification.
-/

namespace Ldb

/-! ### Error codes (src/journal.h, lines 125-145) -/

def LDB_OK : Int := 0
def LDB_ERR : Int := -1
def LDB_ERR_ARG : Int := -2
def LDB_ERR_MEM : Int := -3
def LDB_ERR_PATH : Int := -4
def LDB_ERR_NAME : Int := -5
def LDB_ERR_OPEN_DAT : Int := -6
def LDB_ERR_READ_DAT : Int := -7
def LDB_ERR_WRITE_DAT : Int := -8
def LDB_ERR_OPEN_IDX : Int := -9
def LDB_ERR_READ_IDX : Int := -10
def LDB_ERR_WRITE_IDX : Int := -11
def LDB_ERR_FMT_DAT : Int := -12
def LDB_ERR_FMT_IDX : Int := -13
def LDB_ERR_ENTRY_SEQNUM : Int := -14
def LDB_ERR_ENTRY_TIMESTAMP : Int := -15
def LDB_ERR_ENTRY_DATA : Int := -16
def LDB_ERR_NOT_FOUND : Int := -17
def LDB_ERR_TMP_FILE : Int := -18
def LDB_ERR_CHECKSUM : Int := -19
def LDB_ERR_LOCK : Int := -20

/-- The closed set of defined error codes (journal.h lines 125-145). -/
def ldbErrorCodes : List Int :=
  [LDB_OK, LDB_ERR, LDB_ERR_ARG, LDB_ERR_MEM, LDB_ERR_PATH, LDB_ERR_NAME,
   LDB_ERR_OPEN_DAT, LDB_ERR_READ_DAT, LDB_ERR_WRITE_DAT, LDB_ERR_OPEN_IDX,
   LDB_ERR_READ_IDX, LDB_ERR_WRITE_IDX, LDB_ERR_FMT_DAT, LDB_ERR_FMT_IDX,
   LDB_ERR_ENTRY_SEQNUM, LDB_ERR_ENTRY_TIMESTAMP, LDB_ERR_ENTRY_DATA,
   LDB_ERR_NOT_FOUND, LDB_ERR_TMP_FILE, LDB_ERR_CHECKSUM, LDB_ERR_LOCK]

/-- `ldb_strerror` (journal.c lines 173-203): positive codes and `LDB_OK`
map to "Success", defined negatives to their message, anything else to
"Unknown error". -/
def ldb_strerror (errnum : Int) : String :=
  if 0 < errnum then "Success"
  else if errnum = LDB_OK then "Success"
  else if errnum = LDB_ERR then "Generic error"
  else if errnum = LDB_ERR_ARG then "Invalid argument"
  else if errnum = LDB_ERR_MEM then "Out of memory"
  else if errnum = LDB_ERR_NAME then "Invalid journal name"
  else if errnum = LDB_ERR_PATH then "Invalid directory"
  else if errnum = LDB_ERR_OPEN_DAT then "Cannot open dat file"
  else if errnum = LDB_ERR_READ_DAT then "Error reading dat file"
  else if errnum = LDB_ERR_WRITE_DAT then "Error writing to dat file"
  else if errnum = LDB_ERR_OPEN_IDX then "Cannot open idx file"
  else if errnum = LDB_ERR_READ_IDX then "Error reading idx file"
  else if errnum = LDB_ERR_WRITE_IDX then "Error writing to idx file"
  else if errnum = LDB_ERR_FMT_DAT then "Invalid dat file"
  else if errnum = LDB_ERR_FMT_IDX then "Invalid idx file"
  else if errnum = LDB_ERR_ENTRY_SEQNUM then "Broken sequence"
  else if errnum = LDB_ERR_ENTRY_TIMESTAMP then "Invalid timestamp"
  else if errnum = LDB_ERR_ENTRY_DATA then "Data not found"
  else if errnum = LDB_ERR_NOT_FOUND then "No results"
  else if errnum = LDB_ERR_TMP_FILE then "Error creating temp file"
  else if errnum = LDB_ERR_CHECKSUM then "Checksum mismatch"
  else if errnum = LDB_ERR_LOCK then "Error locking file"
  else "Unknown error"

/-! ### CRC-32 (journal.c lines 113-171) -/

/-- The AUTODIN II / IEEE CRC-32 table `ldb_crctab` (journal.c lines 113-146). -/
def ldb_crctab : List Nat :=
 [  0x00000000, 0x77073096, 0xee0e612c, 0x990951ba, 0x076dc419, 0x706af48f, 0xe963a535, 0x9e6495a3,
  0x0edb8832, 0x79dcb8a4, 0xe0d5e91e, 0x97d2d988, 0x09b64c2b, 0x7eb17cbd, 0xe7b82d07, 0x90bf1d91,
  0x1db71064, 0x6ab020f2, 0xf3b97148, 0x84be41de, 0x1adad47d, 0x6ddde4eb, 0xf4d4b551, 0x83d385c7,
  0x136c9856, 0x646ba8c0, 0xfd62f97a, 0x8a65c9ec, 0x14015c4f, 0x63066cd9, 0xfa0f3d63, 0x8d080df5,
  0x3b6e20c8, 0x4c69105e, 0xd56041e4, 0xa2677172, 0x3c03e4d1, 0x4b04d447, 0xd20d85fd, 0xa50ab56b,
  0x35b5a8fa, 0x42b2986c, 0xdbbbc9d6, 0xacbcf940, 0x32d86ce3, 0x45df5c75, 0xdcd60dcf, 0xabd13d59,
  0x26d930ac, 0x51de003a, 0xc8d75180, 0xbfd06116, 0x21b4f4b5, 0x56b3c423, 0xcfba9599, 0xb8bda50f,
  0x2802b89e, 0x5f058808, 0xc60cd9b2, 0xb10be924, 0x2f6f7c87, 0x58684c11, 0xc1611dab, 0xb6662d3d,
  0x76dc4190, 0x01db7106, 0x98d220bc, 0xefd5102a, 0x71b18589, 0x06b6b51f, 0x9fbfe4a5, 0xe8b8d433,
  0x7807c9a2, 0x0f00f934, 0x9609a88e, 0xe10e9818, 0x7f6a0dbb, 0x086d3d2d, 0x91646c97, 0xe6635c01,
  0x6b6b51f4, 0x1c6c6162, 0x856530d8, 0xf262004e, 0x6c0695ed, 0x1b01a57b, 0x8208f4c1, 0xf50fc457,
  0x65b0d9c6, 0x12b7e950, 0x8bbeb8ea, 0xfcb9887c, 0x62dd1ddf, 0x15da2d49, 0x8cd37cf3, 0xfbd44c65,
  0x4db26158, 0x3ab551ce, 0xa3bc0074, 0xd4bb30e2, 0x4adfa541, 0x3dd895d7, 0xa4d1c46d, 0xd3d6f4fb,
  0x4369e96a, 0x346ed9fc, 0xad678846, 0xda60b8d0, 0x44042d73, 0x33031de5, 0xaa0a4c5f, 0xdd0d7cc9,
  0x5005713c, 0x270241aa, 0xbe0b1010, 0xc90c2086, 0x5768b525, 0x206f85b3, 0xb966d409, 0xce61e49f,
  0x5edef90e, 0x29d9c998, 0xb0d09822, 0xc7d7a8b4, 0x59b33d17, 0x2eb40d81, 0xb7bd5c3b, 0xc0ba6cad,
  0xedb88320, 0x9abfb3b6, 0x03b6e20c, 0x74b1d29a, 0xead54739, 0x9dd277af, 0x04db2615, 0x73dc1683,
  0xe3630b12, 0x94643b84, 0x0d6d6a3e, 0x7a6a5aa8, 0xe40ecf0b, 0x9309ff9d, 0x0a00ae27, 0x7d079eb1,
  0xf00f9344, 0x8708a3d2, 0x1e01f268, 0x6906c2fe, 0xf762575d, 0x806567cb, 0x196c3671, 0x6e6b06e7,
  0xfed41b76, 0x89d32be0, 0x10da7a5a, 0x67dd4acc, 0xf9b9df6f, 0x8ebeeff9, 0x17b7be43, 0x60b08ed5,
  0xd6d6a3e8, 0xa1d1937e, 0x38d8c2c4, 0x4fdff252, 0xd1bb67f1, 0xa6bc5767, 0x3fb506dd, 0x48b2364b,
  0xd80d2bda, 0xaf0a1b4c, 0x36034af6, 0x41047a60, 0xdf60efc3, 0xa867df55, 0x316e8eef, 0x4669be79,
  0xcb61b38c, 0xbc66831a, 0x256fd2a0, 0x5268e236, 0xcc0c7795, 0xbb0b4703, 0x220216b9, 0x5505262f,
  0xc5ba3bbe, 0xb2bd0b28, 0x2bb45a92, 0x5cb36a04, 0xc2d7ffa7, 0xb5d0cf31, 0x2cd99e8b, 0x5bdeae1d,
  0x9b64c2b0, 0xec63f226, 0x756aa39c, 0x026d930a, 0x9c0906a9, 0xeb0e363f, 0x72076785, 0x05005713,
  0x95bf4a82, 0xe2b87a14, 0x7bb12bae, 0x0cb61b38, 0x92d28e9b, 0xe5d5be0d, 0x7cdcefb7, 0x0bdbdf21,
  0x86d3d2d4, 0xf1d4e242, 0x68ddb3f8, 0x1fda836e, 0x81be16cd, 0xf6b9265b, 0x6fb077e1, 0x18b74777,
  0x88085ae6, 0xff0f6a70, 0x66063bca, 0x11010b5c, 0x8f659eff, 0xf862ae69, 0x616bffd3, 0x166ccf45,
  0xa00ae278, 0xd70dd2ee, 0x4e048354, 0x3903b3c2, 0xa7672661, 0xd06016f7, 0x4969474d, 0x3e6e77db,
  0xaed16a4a, 0xd9d65adc, 0x40df0b66, 0x37d83bf0, 0xa9bcae53, 0xdebb9ec5, 0x47b2cf7f, 0x30b5ffe9,
  0xbdbdf21c, 0xcabac28a, 0x53b39330, 0x24b4a3a6, 0xbad03605, 0xcdd70693, 0x54de5729, 0x23d967bf,
  0xb3667a2e, 0xc4614ab8, 0x5d681b02, 0x2a6f2b94, 0xb40bbe37, 0xc30c8ea1, 0x5a05df1b, 0x2d02ef8d]

/-- One step of the `LDB_CRC` macro (journal.c line 148):
`crc = (crc >> 8) ^ ldb_crctab[(crc ^ ch) & 0xff]`. -/
def crcStep (crc ch : Nat) : Nat :=
  (crc >>> 8) ^^^ (ldb_crctab.getD ((crc ^^^ ch) % 256) 0)

/-- `ldb_crc32` (journal.c lines 160-171).  `bytes` models the `len` bytes
at the pointer; a `NULL` pointer or `len == 0` both correspond to the empty
list.  The C complements the running value on entry and on exit. -/
def ldb_crc32 (bytes : List Nat) (checksum : Nat) : Nat :=
  if bytes = [] then checksum
  else (bytes.foldl crcStep (checksum ^^^ 0xFFFFFFFF)) ^^^ 0xFFFFFFFF

/-! ### Sizes and small utilities (journal.c lines 84-234)

On the target platform the packed headers are 8+4+116 = 128 bytes, both
packed records are 24 bytes, and `sizeof(uintptr_t)` is 8. -/

def headerSize : Nat := 128
def recordSize : Nat := 24

/-- `ldb_padding` (journal.c lines 230-234): bytes needed to round
`value` up to the next multiple of the word size (8). -/
def ldb_padding (value : Nat) : Nat :=
  ((value + 7) / 8) * 8 - value

/-- `ldb_clamp` (journal.c lines 225-228). -/
def ldb_clamp (val lo hi : Nat) : Nat :=
  if val < lo then lo else if hi < val then hi else val

/-- Two's-complement wrap of an integer into a C `long` (64-bit). -/
def wrapInt64 (n : Int) : Int :=
  (n + 2 ^ 63) % 2 ^ 64 - 2 ^ 63

/-- `uint64_t` / `size_t` subtraction (wraps modulo `2 ^ 64`). -/
def sub64 (a b : Nat) : Nat := (a + 2 ^ 64 - b % 2 ^ 64) % 2 ^ 64

/-! ### Data model (journal.c lines 54-107, journal.h lines 159-174) -/

/-- `ldb_state_t` (journal.c lines 54-59). -/
structure LdbState where
  seqnum1 : Nat
  timestamp1 : Nat
  seqnum2 : Nat
  timestamp2 : Nat
  deriving DecidableEq, Repr

/-- `ldb_entry_t` (journal.h lines 159-164).  `data = none` models a
`NULL` data pointer; `some bytes` models the `data_len` bytes at the
pointer. -/
structure LdbEntry where
  seqnum : Nat
  timestamp : Nat
  data_len : Nat
  data : Option (List Nat)
  deriving DecidableEq, Repr

/-- `ldb_record_idx_t` (journal.c lines 103-107). -/
structure IdxRecord where
  seqnum : Nat
  timestamp : Nat
  pos : Nat
  deriving DecidableEq, Repr

/-- An `ldb_record_dat_t` (journal.c lines 96-101) together with the file
offset it was written at and its payload bytes. -/
structure DatRecord where
  pos : Nat
  seqnum : Nat
  timestamp : Nat
  data_len : Nat
  checksum : Nat
  payload : List Nat
  deriving DecidableEq, Repr

/-- The open journal (the parts of `ldb_impl_t`, journal.c lines 61-82,
that the modelled operations touch): the published state, the data file
as the list of records it holds (in file order), the index file as a map
from seqnum to the 24-byte slot at offset
`headerSize + (seqnum - seqnum1) * 24`, and the data high-water mark. -/
structure Journal where
  state : LdbState
  dat : List DatRecord
  idx : Nat → IdxRecord
  dat_end : Nat

/-- Little-endian byte encoding of `n` on `w` bytes (how the packed
struct fields lie in memory when `ldb_checksum_entry` digests them). -/
def leBytes (w n : Nat) : List Nat :=
  (List.range w).map fun i => (n >>> (8 * i)) % 256

/-- `ldb_checksum_entry` (journal.c lines 573-585): CRC-32 over the
seqnum, timestamp and data_len fields followed by the payload bytes
(only when `data_len` is nonzero and the pointer is non-`NULL`). -/
def ldb_checksum_entry (e : LdbEntry) : Nat :=
  let c := ldb_crc32 (leBytes 8 e.seqnum) 0
  let c := ldb_crc32 (leBytes 8 e.timestamp) c
  let c := ldb_crc32 (leBytes 4 e.data_len) c
  match e.data with
  | some d => if e.data_len ≠ 0 then ldb_crc32 d c else c
  | none => c

/-! ### Journal name validation (journal.c lines 330-341) -/

/-- `isalnum(c) || c == '_'` in the C locale, on a byte. -/
def isNameChar (c : Nat) : Bool :=
  (48 ≤ c ∧ c ≤ 57) ∨ (65 ≤ c ∧ c ≤ 90) ∨ (97 ≤ c ∧ c ≤ 122) ∨ c = 95

/-- The pointer walk of `ldb_is_valid_name`: advance while the byte is a
name character; at the terminating NUL require `ptr - name < 32`. -/
def nameWalk : List Nat → Nat → Bool
  | [], i => decide (i < 32)
  | c :: rest, i => if isNameChar c then nameWalk rest (i + 1) else false

/-- `ldb_is_valid_name` (journal.c lines 330-341).  `name` is the byte
content of a NUL-terminated C string (so it contains no 0 byte). -/
def ldb_is_valid_name (name : List Nat) : Bool :=
  !name.isEmpty && nameWalk name 0

/-! ### Append (journal.c lines 590-673 and 1249-1312) -/

/-- The per-entry assignment step of `ldb_append` (journal.c lines
1273-1277): seqnum 0 becomes `state.seqnum2 + 1`; timestamp 0 becomes
`max(now, state.timestamp2)` where `now` is the wall clock in ms. -/
def procEntry (st : LdbState) (now : Nat) (e : LdbEntry) : LdbEntry :=
  { e with
    seqnum := if e.seqnum = 0 then st.seqnum2 + 1 else e.seqnum,
    timestamp := if e.timestamp = 0 then max now st.timestamp2 else e.timestamp }

/-- The validation performed by `ldb_append_entry_dat` (journal.c lines
601-608), in source order: missing data, then broken sequence, then
invalid timestamp. -/
def entryError (st : LdbState) (e : LdbEntry) : Int :=
  if e.data_len ≠ 0 ∧ e.data = none then LDB_ERR_ENTRY_DATA
  else if st.seqnum2 ≠ 0 ∧ e.seqnum ≠ st.seqnum2 + 1 then LDB_ERR_ENTRY_SEQNUM
  else if e.timestamp < st.timestamp2 then LDB_ERR_ENTRY_TIMESTAMP
  else LDB_OK

/-- The state-snapshot update of `ldb_append_entry_dat` (journal.c lines
634-640). -/
def entryState (st : LdbState) (e : LdbEntry) : LdbState :=
  { seqnum1 := if st.seqnum1 = 0 then e.seqnum else st.seqnum1,
    timestamp1 := if st.seqnum1 = 0 then e.timestamp else st.timestamp1,
    seqnum2 := e.seqnum,
    timestamp2 := e.timestamp }

/-- The data record `ldb_append_entry_dat` writes at offset `pos`
(journal.c lines 610-632). -/
def entryRecord (pos : Nat) (e : LdbEntry) : DatRecord :=
  ⟨pos, e.seqnum, e.timestamp, e.data_len, ldb_checksum_entry e, e.data.getD []⟩

/-- `ldb_append_entry_dat` (journal.c lines 590-649): validate, write the
record (plus payload and pad bytes) at `dat_end`, update the state
snapshot and `dat_end`. -/
def ldb_append_entry_dat (J : Journal) (st : LdbState) (e : LdbEntry) :
    Int × LdbState × Journal :=
  let err := entryError st e
  if err ≠ LDB_OK then (err, st, J)
  else (LDB_OK, entryState st e,
        { J with dat := J.dat ++ [entryRecord J.dat_end e],
                 dat_end := J.dat_end + recordSize + e.data_len + ldb_padding e.data_len })

/-- `ldb_get_pos_idx` (journal.c lines 550-557): in-file offset of the
index slot of `seqnum`. -/
def ldb_get_pos_idx (st : LdbState) (seqnum : Nat) : Nat :=
  headerSize + (if st.seqnum1 = 0 then 0 else seqnum - st.seqnum1) * recordSize

/-- `ldb_append_record_idx` (journal.c lines 651-673): requires
`record.seqnum == state.seqnum2`, then writes the 24-byte slot of
`record.seqnum` (the model keys index slots by seqnum, which is the
slot `ldb_get_pos_idx` addresses). -/
def ldb_append_record_idx (J : Journal) (st : LdbState) (r : IdxRecord) :
    Int × Journal :=
  if r.seqnum ≠ st.seqnum2 then (LDB_ERR, J)
  else (LDB_OK, { J with idx := Function.update J.idx r.seqnum r })

/-- Observable file/state actions of `ldb_append`, in program order. -/
inductive Event where
  | writeDat (seqnum : Nat)
  | writeIdx (seqnum : Nat)
  | flushDat
  | flushIdx
  | syncDat
  | publishState
  deriving DecidableEq, Repr

/-- The entry loop of `ldb_append` (journal.c lines 1271-1293).  Returns
the first error (or `LDB_OK`), the number of entries fully appended, the
journal as mutated so far (state not yet published), the evolved state
snapshot, and the write events emitted. -/
def appendLoop (now : Nat) : Journal → LdbState → List LdbEntry → Nat → List Event →
    Int × Nat × Journal × LdbState × List Event
  | J, st, [], n, evs => (LDB_OK, n, J, st, evs)
  | J, st, e :: rest, n, evs =>
    let e' := procEntry st now e
    let ridx : IdxRecord := ⟨e'.seqnum, e'.timestamp, J.dat_end⟩
    match ldb_append_entry_dat J st e' with
    | (ret, st', J') =>
      if ret ≠ LDB_OK then (ret, n, J, st, evs)
      else match ldb_append_record_idx J' st' ridx with
        | (ret2, J'') =>
          if ret2 ≠ LDB_OK then (ret2, n, J', st', evs ++ [Event.writeDat e'.seqnum])
          else appendLoop now J'' st' rest (n + 1)
                 (evs ++ [Event.writeDat e'.seqnum, Event.writeIdx e'.seqnum])

structure AppendResult where
  ret : Int
  num : Nat
  journal : Journal
  events : List Event

/-- `ldb_append` (journal.c lines 1249-1312).  `entries` models the array
of `len` entries (`len == 0` is the empty list); `now` the wall clock;
on first-entry failure (`i == 0`) the function returns without flushing
or publishing, otherwise it flushes data then index, optionally
`fdatasync`s, and publishes the evolved state. -/
def ldb_append (J : Journal) (entries : List LdbEntry) (now : Nat)
    (force_fsync : Bool) : AppendResult :=
  if entries = [] then ⟨LDB_OK, 0, J, []⟩
  else
    match appendLoop now J J.state entries 0 [] with
    | (ret, n, J', st', evs) =>
      if n = 0 ∧ ret ≠ LDB_OK then ⟨ret, 0, J', evs⟩
      else
        ⟨ret, n, { J' with state := st' },
         evs ++ [Event.flushDat, Event.flushIdx]
             ++ (if force_fsync then [Event.syncDat] else [])
             ++ [Event.publishState]⟩

/-! ### Positional reads (journal.c lines 677-754) -/

/-- `ldb_read_record_idx` (journal.c lines 729-754): out-of-range seqnums
are an error, the first seqnum is answered from the state snapshot, any
other slot is read from the file and must carry the requested seqnum. -/
def ldb_read_record_idx (J : Journal) (st : LdbState) (seqnum : Nat) :
    Except Int IdxRecord :=
  if st.seqnum1 = 0 ∨ seqnum < st.seqnum1 ∨ st.seqnum2 < seqnum then .error LDB_ERR
  else if seqnum = st.seqnum1 then .ok ⟨st.seqnum1, st.timestamp1, headerSize⟩
  else
    let r := J.idx seqnum
    if r.seqnum ≠ seqnum then .error LDB_ERR else .ok r

/-- `ldb_read_record_dat` with `verify_checksum = false` (journal.c lines
677-689): read the 24-byte record stored at offset `pos` of the data
file; a position holding no record is a short/garbage read. -/
def ldb_read_record_dat (J : Journal) (pos : Nat) : Except Int DatRecord :=
  match J.dat.find? (fun r => r.pos == pos) with
  | some r => .ok r
  | none => .error LDB_ERR_FMT_DAT

/-! ### Search (journal.c lines 1512-1595) -/

inductive SearchMode where
  | lower
  | upper
  deriving DecidableEq, Repr

/-- The binary-search loop of `ldb_search` (journal.c lines 1565-1586).
The probe seqnum is `(sn1 + sn2) / 2` computed in `uint64_t`, hence the
`% 2 ^ 64`.  `fuel` only bounds the recursion; every run that the
verified regime reaches terminates before exhausting it. -/
def searchLoop (J : Journal) (st : LdbState) (mode : SearchMode) (timestamp : Nat) :
    Nat → Nat → Nat → Nat → Nat → Int × Nat
  | 0, _, _, _, _ => (LDB_ERR, 0)
  | fuel + 1, sn1, sn2, ts1, ts2 =>
    if sn1 + 1 < sn2 ∧ ts1 ≠ ts2 then
      let sn := ((sn1 + sn2) % 2 ^ 64) / 2
      match ldb_read_record_idx J st sn with
      | .error e => (e, 0)
      | .ok r =>
        let ts := r.timestamp
        if ts < timestamp then searchLoop J st mode timestamp fuel sn sn2 ts ts2
        else if timestamp < ts ∨ mode = SearchMode.lower then
          searchLoop J st mode timestamp fuel sn1 sn ts1 ts
        else searchLoop J st mode timestamp fuel sn sn2 ts ts2
    else (LDB_OK, sn2)

/-- `ldb_search` (journal.c lines 1512-1595): returns the status and the
value stored through the `seqnum` out-parameter (0 unless found). -/
def ldb_search (J : Journal) (timestamp : Nat) (mode : SearchMode) : Int × Nat :=
  let st := J.state
  if st.seqnum1 = 0 then (LDB_ERR_NOT_FOUND, 0)
  else if mode = SearchMode.lower ∧ st.timestamp2 < timestamp then (LDB_ERR_NOT_FOUND, 0)
  else if mode = SearchMode.upper ∧ st.timestamp2 ≤ timestamp then (LDB_ERR_NOT_FOUND, 0)
  else if mode = SearchMode.lower ∧ timestamp ≤ st.timestamp1 then (LDB_OK, st.seqnum1)
  else if mode = SearchMode.upper ∧ timestamp < st.timestamp1 then (LDB_OK, st.seqnum1)
  else searchLoop J st mode timestamp (st.seqnum2 - st.seqnum1 + 1)
         st.seqnum1 st.seqnum2 st.timestamp1 st.timestamp2

/-! ### Stats (journal.c lines 1446-1507) -/

structure LdbStats where
  min_seqnum : Nat
  max_seqnum : Nat
  min_timestamp : Nat
  max_timestamp : Nat
  num_entries : Nat
  data_size : Nat
  index_size : Nat
  deriving DecidableEq, Repr

def zeroStats : LdbStats := ⟨0, 0, 0, 0, 0, 0, 0⟩

/-- `ldb_stats` (journal.c lines 1446-1507).  `old` is the caller's
structure before the call; the result pairs the return code with the
structure after the call (`memset` to zero happens only after the
argument check).  The seqnum/position differences and the `num_entries`,
`index_size` and `data_size` fields are computed in `uint64_t`/`size_t`,
so every such computation wraps modulo `2 ^ 64` (`sub64`, `% 2 ^ 64`). -/
def ldb_stats (J : Journal) (seqnum1 seqnum2 : Nat) (old : LdbStats) :
    Int × LdbStats :=
  if seqnum2 < seqnum1 then (LDB_ERR_ARG, old)
  else
    let st := J.state
    if st.seqnum1 = 0 ∨ seqnum2 < st.seqnum1 ∨ st.seqnum2 < seqnum1 then
      (LDB_OK, zeroStats)
    else
      let a := ldb_clamp seqnum1 st.seqnum1 st.seqnum2
      let b := ldb_clamp seqnum2 st.seqnum1 st.seqnum2
      match ldb_read_record_idx J st a with
      | .error e => (e, zeroStats)
      | .ok r1 =>
        match ldb_read_record_idx J st b with
        | .error e => (e, zeroStats)
        | .ok r2 =>
          if r2.pos < (r1.pos + sub64 r2.seqnum r1.seqnum * recordSize) % 2 ^ 64 then
            (LDB_ERR, zeroStats)
          else match ldb_read_record_dat J r2.pos with
            | .error e => (e, zeroStats)
            | .ok rd =>
              if rd.seqnum ≠ b then (LDB_ERR, zeroStats)
              else
                let num := (sub64 b a + 1) % 2 ^ 64
                (LDB_OK,
                  { min_seqnum := r1.seqnum, max_seqnum := r2.seqnum,
                    min_timestamp := r1.timestamp, max_timestamp := r2.timestamp,
                    num_entries := num,
                    data_size := (sub64 r2.pos r1.pos + recordSize + rd.data_len
                                  + ldb_padding rd.data_len) % 2 ^ 64,
                    index_size := (recordSize * num) % 2 ^ 64 })

/-! ### Rollback (journal.c lines 1600-1688) -/

def zeroIdxRecord : IdxRecord := ⟨0, 0, 0⟩

/-- The index-clearing loop of `ldb_rollback` (journal.c lines 1643-1654):
zero the slots from `csn` down to `max(seqnum + 1, seqnum1)`. -/
def rollbackZeroLoop (seqnum sn1 : Nat) : Nat → (Nat → IdxRecord) → Nat → IdxRecord
  | csn, idx =>
    if seqnum < csn ∧ sn1 ≤ csn then
      rollbackZeroLoop seqnum sn1 (csn - 1) (Function.update idx csn zeroIdxRecord)
    else idx
  termination_by csn _ => csn
  decreasing_by omega

/-- `ldb_rollback` (journal.c lines 1600-1688).  Returns the value of the
C `long` result (removed count, or a negative error code) and the journal
afterwards.  The C casts the `uint64_t` count to `long`, hence
`wrapInt64`. -/
def ldb_rollback (J : Journal) (seqnum : Nat) : Int × Journal :=
  let st := J.state
  if st.seqnum2 ≤ seqnum then (0, J)
  else
    let removed := wrapInt64 ((st.seqnum2 : Int) - ((max seqnum (sub64 st.seqnum1 1) : Nat) : Int))
    let readRes : Except Int (Nat × Nat) :=
      if st.seqnum1 ≤ seqnum then
        match ldb_read_record_idx J st seqnum with
        | .error e => .error e
        | .ok r1 =>
          match ldb_read_record_idx J st (seqnum + 1) with
          | .error e => .error e
          | .ok r2 => .ok (r1.timestamp, r2.pos)
      else .ok (0, headerSize)
    match readRes with
    | .error e => (e, J)
    | .ok (last_timestamp_new, dat_end_new) =>
      let idx' := rollbackZeroLoop seqnum st.seqnum1 st.seqnum2 J.idx
      let stPair : LdbState × Nat :=
        if seqnum < st.seqnum1 then (⟨0, 0, 0, 0⟩, headerSize)
        else ({ st with seqnum2 := seqnum, timestamp2 := last_timestamp_new }, dat_end_new)
      let dat' := J.dat.filter (fun r => r.pos < dat_end_new)
      (removed, { state := stPair.1, dat := dat', idx := idx', dat_end := stPair.2 })

/-! ### Concrete journals used by witnesses and counterexamples -/

/-- An empty, freshly created journal. -/
def J0 : Journal :=
  { state := ⟨0, 0, 0, 0⟩, dat := [], idx := fun _ => zeroIdxRecord,
    dat_end := headerSize }

/-- Timestamps of the five-entry witness journal: 10, 10, 20, 20, 30. -/
def tsF (s : Nat) : Nat := if s ≤ 2 then 10 else if s ≤ 4 then 20 else 30

/-- A five-entry journal, seqnums 1..5, each record 8 payload bytes. -/
def Jt : Journal :=
  { state := ⟨1, 10, 5, 30⟩,
    dat := (List.range 5).map fun i =>
      ⟨headerSize + 32 * i, i + 1, tsF (i + 1), 8, 0, List.replicate 8 0⟩,
    idx := fun s => ⟨s, tsF s, headerSize + 32 * (s - 1)⟩,
    dat_end := headerSize + 32 * 5 }

/-- The journal of the spec's end-to-end scenario: seqnums 20..314 with
`timestamp = seqnum - seqnum % 10` and 8 payload bytes per record (only
the record probed by `ldb_stats` is materialised in `dat`). -/
def Js : Journal :=
  { state := ⟨20, 20, 314, 310⟩,
    dat := [⟨headerSize + 32 * 294, 314, 310, 8, 0, List.replicate 8 0⟩],
    idx := fun s => ⟨s, s - s % 10, headerSize + 32 * (s - 20)⟩,
    dat_end := headerSize + 32 * 295 }

/-! ## Claim theorems -/

lemma ite_ne {α : Type} {c : Prop} [Decidable c] {a b x : α}
    (ha : a ≠ x) (hb : b ≠ x) : (if c then a else b) ≠ x := by
  split <;> assumption

/-- C7: `ldb_crc32` satisfies the composition law
`crc32 (a ++ b) init = crc32 b (crc32 a init)`, and the CRC of the empty
string with any initial value is that value. -/
theorem ldb_crc32_composable :
    (∀ a b init, ldb_crc32 (a ++ b) init = ldb_crc32 b (ldb_crc32 a init)) ∧
    (∀ init, ldb_crc32 [] init = init) := by
  refine ⟨?_, fun init => rfl⟩
  intro a b init
  rcases a with _ | ⟨x, xs⟩
  · simp [ldb_crc32]
  rcases b with _ | ⟨y, ys⟩
  · simp [ldb_crc32]
  · unfold ldb_crc32
    simp [List.foldl_append, Nat.xor_cancel_right]

/-- C8: `ldb_strerror` is total, maps every strictly positive code to the
same string "Success" as `LDB_OK`, maps every negative code outside the
defined set to "Unknown error", and never yields the empty string (the C
function never returns `NULL`: every branch is a literal). -/
theorem ldb_strerror_spec (n : Int) :
    (0 < n → ldb_strerror n = "Success") ∧
    ldb_strerror LDB_OK = "Success" ∧
    (n < 0 → n ∉ ldbErrorCodes → ldb_strerror n = "Unknown error") ∧
    ldb_strerror n ≠ "" := by
  refine ⟨?_, by decide, ?_, ?_⟩
  · intro h
    unfold ldb_strerror
    rw [if_pos h]
  · intro hneg hmem
    simp only [ldbErrorCodes, List.mem_cons, List.not_mem_nil, or_false, not_or] at hmem
    obtain ⟨h0, h1, h2, h3, h4, h5, h6, h7, h8, h9, h10, h11, h12, h13, h14, h15,
      h16, h17, h18, h19, h20⟩ := hmem
    unfold ldb_strerror
    rw [if_neg (by omega), if_neg h0, if_neg h1, if_neg h2, if_neg h3, if_neg h4,
        if_neg h5, if_neg h6, if_neg h7, if_neg h8, if_neg h9, if_neg h10, if_neg h11,
        if_neg h12, if_neg h13, if_neg h14, if_neg h15, if_neg h16, if_neg h17,
        if_neg h18, if_neg h19, if_neg h20]
  · unfold ldb_strerror
    repeat' apply ite_ne
    all_goals decide

/-- Witness for C8 at the concrete codes 7 and -99. -/
theorem ldb_strerror_spec_witness :
    (0 : Int) < 7 ∧ ldb_strerror 7 = "Success" ∧
    (-99 : Int) < 0 ∧ (-99 : Int) ∉ ldbErrorCodes ∧
    ldb_strerror (-99) = "Unknown error" :=
  ⟨by decide, (ldb_strerror_spec 7).1 (by decide), by decide, by decide,
   (ldb_strerror_spec (-99)).2.2.1 (by decide) (by decide)⟩

/-- C6: the 32-character all-alphanumeric name is rejected by
`ldb_is_valid_name`, although journal.h documents "max length = 32" and
the spec admits names of up to 32 characters: the code demands
`ptr - name < 32`, i.e. at most 31 characters. -/
theorem ldb_is_valid_name_rejects_32 :
    (List.replicate 32 97).length = 32 ∧
    (List.replicate 32 97).all isNameChar = true ∧
    ldb_is_valid_name (List.replicate 31 97) = true ∧
    ldb_is_valid_name (List.replicate 32 97) = false := by decide

/-- C9: appending an empty batch returns `LDB_OK` with `num = 0` and
leaves the journal (state, data file, index file, `dat_end`) untouched;
no write, flush or publish event is emitted. -/
theorem ldb_append_empty_noop (J : Journal) (now : Nat) (fsync : Bool) :
    ldb_append J [] now fsync = ⟨LDB_OK, 0, J, []⟩ := by
  simp [ldb_append]

/-- C10: when `seqnum2 < seqnum1`, `ldb_stats` returns the
invalid-argument error and the caller's structure unmodified, for every
journal (so without examining the journal's state). -/
theorem ldb_stats_invalid_range (J : Journal) (sn1 sn2 : Nat) (old : LdbStats)
    (h : sn2 < sn1) :
    ldb_stats J sn1 sn2 old = (LDB_ERR_ARG, old) := by
  simp [ldb_stats, h]

/-- Witness for C10 on the empty journal with the reversed range (5, 3). -/
theorem ldb_stats_invalid_range_witness :
    (3 : Nat) < 5 ∧ ldb_stats J0 5 3 zeroStats = (LDB_ERR_ARG, zeroStats) :=
  ⟨by decide, ldb_stats_invalid_range J0 5 3 zeroStats (by decide)⟩

/-! ### Append step lemmas (shared by C2 and C4) -/

lemma ldb_append_entry_dat_err {st : LdbState} (J : Journal) {e : LdbEntry}
    (h : entryError st e ≠ LDB_OK) :
    ldb_append_entry_dat J st e = (entryError st e, st, J) := by
  unfold ldb_append_entry_dat
  simp [h]

lemma ldb_append_entry_dat_ok {st : LdbState} (J : Journal) {e : LdbEntry}
    (h : entryError st e = LDB_OK) :
    ldb_append_entry_dat J st e =
      (LDB_OK, entryState st e,
       { J with dat := J.dat ++ [entryRecord J.dat_end e],
                dat_end := J.dat_end + recordSize + e.data_len + ldb_padding e.data_len }) := by
  unfold ldb_append_entry_dat
  simp [h]

lemma ldb_append_record_idx_ok (J : Journal) (st : LdbState) (r : IdxRecord)
    (h : r.seqnum = st.seqnum2) :
    ldb_append_record_idx J st r =
      (LDB_OK, { J with idx := Function.update J.idx r.seqnum r }) := by
  unfold ldb_append_record_idx
  simp [h]

lemma appendLoop_cons_err (now : Nat) (J : Journal) (st : LdbState)
    (e : LdbEntry) (rest : List LdbEntry) (n : Nat) (evs : List Event)
    (h : entryError st (procEntry st now e) ≠ LDB_OK) :
    appendLoop now J st (e :: rest) n evs =
      (entryError st (procEntry st now e), n, J, st, evs) := by
  simp only [appendLoop]
  rw [ldb_append_entry_dat_err J h]
  simp [h]

lemma appendLoop_cons_ok (now : Nat) (J : Journal) (st : LdbState)
    (e : LdbEntry) (rest : List LdbEntry) (n : Nat) (evs : List Event)
    (h : entryError st (procEntry st now e) = LDB_OK) :
    appendLoop now J st (e :: rest) n evs =
      appendLoop now
        { J with dat := J.dat ++ [entryRecord J.dat_end (procEntry st now e)],
                 dat_end := J.dat_end + recordSize + (procEntry st now e).data_len
                            + ldb_padding (procEntry st now e).data_len,
                 idx := Function.update J.idx (procEntry st now e).seqnum
                          ⟨(procEntry st now e).seqnum, (procEntry st now e).timestamp,
                           J.dat_end⟩ }
        (entryState st (procEntry st now e)) rest (n + 1)
        (evs ++ [Event.writeDat (procEntry st now e).seqnum,
                 Event.writeIdx (procEntry st now e).seqnum]) := by
  simp only [appendLoop]
  rw [ldb_append_entry_dat_ok J h]
  simp only [h]
  rw [ldb_append_record_idx_ok _ _ _ rfl]
  simp [LDB_OK, LDB_ERR]

lemma entryError_seqnum_char (st : LdbState) (now : Nat) (e : LdbEntry) :
    entryError st (procEntry st now e) = LDB_ERR_ENTRY_SEQNUM ↔
      (st.seqnum2 ≠ 0 ∧ e.seqnum ≠ 0 ∧ e.seqnum ≠ st.seqnum2 + 1 ∧
       ¬(e.data_len ≠ 0 ∧ e.data = none)) := by
  unfold entryError procEntry
  split_ifs <;>
    simp_all [LDB_ERR_ENTRY_DATA, LDB_ERR_ENTRY_SEQNUM, LDB_ERR_ENTRY_TIMESTAMP, LDB_OK]

/-- C4 (amended): an `ldb_append` of one entry fails with the
broken-sequence error exactly when the journal is non-empty
(`state.seqnum2 ≠ 0`), the provided seqnum is neither 0 nor
`state.seqnum2 + 1`, and the entry passes the earlier missing-data check;
on an empty journal every provided seqnum is admitted (the first entry
may start the sequence anywhere, as journal.h documents). -/
theorem ldb_append_broken_seqnum_iff (J : Journal) (now : Nat) (fsync : Bool)
    (e : LdbEntry) :
    (ldb_append J [e] now fsync).ret = LDB_ERR_ENTRY_SEQNUM ↔
      (J.state.seqnum2 ≠ 0 ∧ e.seqnum ≠ 0 ∧ e.seqnum ≠ J.state.seqnum2 + 1 ∧
       ¬(e.data_len ≠ 0 ∧ e.data = none)) := by
  rw [← entryError_seqnum_char J.state now e]
  by_cases herr : entryError J.state (procEntry J.state now e) = LDB_OK
  · unfold ldb_append
    rw [if_neg (by simp)]
    rw [appendLoop_cons_ok now J J.state e [] 0 [] herr]
    simp only [appendLoop]
    simp [herr, LDB_OK, LDB_ERR_ENTRY_SEQNUM]
  · unfold ldb_append
    rw [if_neg (by simp)]
    rw [appendLoop_cons_err now J J.state e [] 0 [] herr]
    simp [herr]

/-- Counterexample to C4 as stated: on the empty journal the entry with
provided seqnum 5 (which is neither 0 nor `state.seqnum2 + 1 = 1`) is
accepted with `LDB_OK`; the claim demands the broken-sequence error. -/
theorem ldb_append_broken_seqnum_counterexample :
    (5 : Nat) ≠ 0 ∧ J0.state.seqnum2 = 0 ∧ (5 : Nat) ≠ J0.state.seqnum2 + 1 ∧
    (ldb_append J0 [⟨5, 1, 0, none⟩] 100 false).ret = LDB_OK ∧
    (ldb_append J0 [⟨5, 1, 0, none⟩] 100 false).ret ≠ LDB_ERR_ENTRY_SEQNUM := by
  refine ⟨by decide, rfl, by decide, by decide, by decide⟩

lemma ldb_clamp_lo (v lo hi : Nat) (h : lo ≤ hi) : lo ≤ ldb_clamp v lo hi := by
  unfold ldb_clamp; split_ifs <;> omega

lemma ldb_clamp_hi (v lo hi : Nat) (h : lo ≤ hi) : ldb_clamp v lo hi ≤ hi := by
  unfold ldb_clamp; split_ifs <;> omega

lemma ldb_clamp_mono (v w lo hi : Nat) (h : v ≤ w) (hlh : lo ≤ hi) :
    ldb_clamp v lo hi ≤ ldb_clamp w lo hi := by
  unfold ldb_clamp; split_ifs <;> omega

lemma ldb_read_record_idx_wf (J : Journal) (T P : Nat → Nat) (t : Nat)
    (hidx : ∀ u, J.state.seqnum1 ≤ u → u ≤ J.state.seqnum2 → J.idx u = ⟨u, T u, P u⟩)
    (hT1 : T J.state.seqnum1 = J.state.timestamp1)
    (hP1 : P J.state.seqnum1 = headerSize)
    (h1 : 1 ≤ J.state.seqnum1)
    (hlo : J.state.seqnum1 ≤ t) (hhi : t ≤ J.state.seqnum2) :
    ldb_read_record_idx J J.state t = .ok ⟨t, T t, P t⟩ := by
  unfold ldb_read_record_idx
  rw [if_neg (by omega)]
  by_cases ht : t = J.state.seqnum1
  · rw [if_pos ht]
    subst ht
    rw [← hT1, ← hP1]
  · rw [if_neg ht]
    rw [hidx t hlo hhi]
    simp

/-- `uint64_t` subtraction agrees with truncated subtraction when it
cannot underflow and the minuend fits in 64 bits. -/
lemma sub64_eq_sub (a b : Nat) (hba : b ≤ a) (ha : a < 2 ^ 64) : sub64 a b = a - b := by
  unfold sub64
  omega

/-- C5: `ldb_stats` returns all-zero statistics when the journal is empty
or the query range is disjoint from `[state.seqnum1, state.seqnum2]`
(for any journal and any query `sn1 ≤ sn2`); on a well-formed open
journal (index slot `u` holds `(u, T u, P u)`, the first slot sits at the
data-header offset, the layout is monotone, positions fit `uint64_t` and
the upper record fits the file) it clamps the range and returns the
clamped endpoints with their timestamps, `num_entries = b - a + 1`,
`index_size = 24 * num_entries` and
`data_size = P b - P a + 24 + data_len + pad(data_len)` where `data_len`
is the upper endpoint's payload length: under these bounds none of the
`size_t` computations in the code wraps. -/
theorem ldb_stats_spec (J : Journal) (T P : Nat → Nat) (rd : DatRecord)
    (old : LdbStats) (sn1 sn2 : Nat)
    (hq : sn1 ≤ sn2)
    (h1 : 1 ≤ J.state.seqnum1)
    (h12 : J.state.seqnum1 ≤ J.state.seqnum2)
    (hidx : ∀ u, J.state.seqnum1 ≤ u → u ≤ J.state.seqnum2 → J.idx u = ⟨u, T u, P u⟩)
    (hT1 : T J.state.seqnum1 = J.state.timestamp1)
    (hP1 : P J.state.seqnum1 = headerSize)
    (hgap : ∀ u v, J.state.seqnum1 ≤ u → u ≤ v → v ≤ J.state.seqnum2 →
        P u + (v - u) * recordSize ≤ P v)
    (hfind : ldb_read_record_dat J (P (ldb_clamp sn2 J.state.seqnum1 J.state.seqnum2)) = .ok rd)
    (hrdseq : rd.seqnum = ldb_clamp sn2 J.state.seqnum1 J.state.seqnum2)
    (h64 : J.state.seqnum2 < 2 ^ 64)
    (hfit : P (ldb_clamp sn2 J.state.seqnum1 J.state.seqnum2) + recordSize + rd.data_len
            + ldb_padding rd.data_len < 2 ^ 64) :
    (∀ (K : Journal) (u v : Nat) (o : LdbStats), u ≤ v → K.state.seqnum1 = 0 →
        ldb_stats K u v o = (LDB_OK, zeroStats)) ∧
    (sn2 < J.state.seqnum1 ∨ J.state.seqnum2 < sn1 →
        ldb_stats J sn1 sn2 old = (LDB_OK, zeroStats)) ∧
    (J.state.seqnum1 ≤ sn2 → sn1 ≤ J.state.seqnum2 →
        ldb_stats J sn1 sn2 old =
          (LDB_OK,
            { min_seqnum := ldb_clamp sn1 J.state.seqnum1 J.state.seqnum2,
              max_seqnum := ldb_clamp sn2 J.state.seqnum1 J.state.seqnum2,
              min_timestamp := T (ldb_clamp sn1 J.state.seqnum1 J.state.seqnum2),
              max_timestamp := T (ldb_clamp sn2 J.state.seqnum1 J.state.seqnum2),
              num_entries := ldb_clamp sn2 J.state.seqnum1 J.state.seqnum2
                             - ldb_clamp sn1 J.state.seqnum1 J.state.seqnum2 + 1,
              data_size := P (ldb_clamp sn2 J.state.seqnum1 J.state.seqnum2)
                           - P (ldb_clamp sn1 J.state.seqnum1 J.state.seqnum2)
                           + recordSize + rd.data_len + ldb_padding rd.data_len,
              index_size := recordSize * (ldb_clamp sn2 J.state.seqnum1 J.state.seqnum2
                            - ldb_clamp sn1 J.state.seqnum1 J.state.seqnum2 + 1) })) := by
  refine ⟨?_, ?_, ?_⟩
  · intro K u v o huv h0
    simp only [ldb_stats]
    rw [if_neg (by omega), if_pos (Or.inl h0)]
  · intro hdisj
    simp only [ldb_stats]
    rw [if_neg (by omega), if_pos (by omega)]
  · intro hv1 hv2
    have ha1 : J.state.seqnum1 ≤ ldb_clamp sn1 J.state.seqnum1 J.state.seqnum2 :=
      ldb_clamp_lo _ _ _ h12
    have ha2 : ldb_clamp sn1 J.state.seqnum1 J.state.seqnum2 ≤ J.state.seqnum2 :=
      ldb_clamp_hi _ _ _ h12
    have hb1 : J.state.seqnum1 ≤ ldb_clamp sn2 J.state.seqnum1 J.state.seqnum2 :=
      ldb_clamp_lo _ _ _ h12
    have hb2 : ldb_clamp sn2 J.state.seqnum1 J.state.seqnum2 ≤ J.state.seqnum2 :=
      ldb_clamp_hi _ _ _ h12
    have hab : ldb_clamp sn1 J.state.seqnum1 J.state.seqnum2
               ≤ ldb_clamp sn2 J.state.seqnum1 J.state.seqnum2 :=
      ldb_clamp_mono _ _ _ _ hq h12
    have hgap1 : P (ldb_clamp sn1 J.state.seqnum1 J.state.seqnum2)
        + (ldb_clamp sn2 J.state.seqnum1 J.state.seqnum2
           - ldb_clamp sn1 J.state.seqnum1 J.state.seqnum2) * 24
        ≤ P (ldb_clamp sn2 J.state.seqnum1 J.state.seqnum2) := by
      simpa [recordSize] using hgap _ _ ha1 hab hb2
    have hPa : 128 ≤ P (ldb_clamp sn1 J.state.seqnum1 J.state.seqnum2) := by
      have h0 := hgap _ _ (le_refl J.state.seqnum1) ha1 ha2
      rw [hP1] at h0
      simpa [headerSize] using Nat.le_trans (Nat.le_add_right _ _) h0
    have hfit24 : P (ldb_clamp sn2 J.state.seqnum1 J.state.seqnum2) + 24 + rd.data_len
        + ldb_padding rd.data_len < 2 ^ 64 := by
      simpa [recordSize] using hfit
    have hPb64 : P (ldb_clamp sn2 J.state.seqnum1 J.state.seqnum2) < 2 ^ 64 := by omega
    have hsubBA : sub64 (ldb_clamp sn2 J.state.seqnum1 J.state.seqnum2)
        (ldb_clamp sn1 J.state.seqnum1 J.state.seqnum2)
        = ldb_clamp sn2 J.state.seqnum1 J.state.seqnum2
          - ldb_clamp sn1 J.state.seqnum1 J.state.seqnum2 :=
      sub64_eq_sub _ _ hab (by omega)
    have hsubP : sub64 (P (ldb_clamp sn2 J.state.seqnum1 J.state.seqnum2))
        (P (ldb_clamp sn1 J.state.seqnum1 J.state.seqnum2))
        = P (ldb_clamp sn2 J.state.seqnum1 J.state.seqnum2)
          - P (ldb_clamp sn1 J.state.seqnum1 J.state.seqnum2) :=
      sub64_eq_sub _ _ (by omega) hPb64
    simp only [ldb_stats]
    rw [if_neg (by omega), if_neg (by omega)]
    rw [ldb_read_record_idx_wf J T P _ hidx hT1 hP1 h1 ha1 ha2]
    rw [ldb_read_record_idx_wf J T P _ hidx hT1 hP1 h1 hb1 hb2]
    simp only [recordSize]
    rw [hsubBA, hsubP]
    rw [Nat.mod_eq_of_lt (show P (ldb_clamp sn1 J.state.seqnum1 J.state.seqnum2)
      + (ldb_clamp sn2 J.state.seqnum1 J.state.seqnum2
         - ldb_clamp sn1 J.state.seqnum1 J.state.seqnum2) * 24 < 2 ^ 64 by omega)]
    rw [if_neg (by omega)]
    rw [hfind]
    simp only []
    rw [if_neg (by simp [hrdseq])]
    rw [Nat.mod_eq_of_lt (show ldb_clamp sn2 J.state.seqnum1 J.state.seqnum2
      - ldb_clamp sn1 J.state.seqnum1 J.state.seqnum2 + 1 < 2 ^ 64 by omega)]
    rw [Nat.mod_eq_of_lt (show 24 * (ldb_clamp sn2 J.state.seqnum1 J.state.seqnum2
      - ldb_clamp sn1 J.state.seqnum1 J.state.seqnum2 + 1) < 2 ^ 64 by omega)]
    rw [Nat.mod_eq_of_lt (show P (ldb_clamp sn2 J.state.seqnum1 J.state.seqnum2)
      - P (ldb_clamp sn1 J.state.seqnum1 J.state.seqnum2) + 24 + rd.data_len
      + ldb_padding rd.data_len < 2 ^ 64 by omega)]


/-- Witness for C5: the spec's scenario journal (seqnums 20..314,
`timestamp = seqnum - seqnum % 10`), query (0, 10_000_000): min 20,
max 314, 295 entries, index size 7080. -/
theorem ldb_stats_spec_witness :
    (0 : Nat) ≤ 10000000 ∧
    ldb_stats Js 0 10000000 zeroStats =
      (LDB_OK, ⟨20, 314, 20, 310, 295, 9440, 7080⟩) := by
  refine ⟨by decide, ?_⟩
  have h := (ldb_stats_spec Js (fun s => s - s % 10) (fun s => headerSize + 32 * (s - 20))
      ⟨headerSize + 32 * 294, 314, 310, 8, 0, List.replicate 8 0⟩ zeroStats 0 10000000
      (by decide) (by decide) (by decide)
      (fun u _ _ => rfl) (by decide) (by decide)
      (fun u v hu huv hv => by
        simp only [Js] at hu hv
        dsimp only [headerSize, recordSize]
        omega)
      rfl (by decide) (by decide) (by decide)).2.2 (by decide) (by decide)
  rw [h]
  decide

/-- Values that fit in a signed 64-bit long are unchanged by the wrap. -/
lemma wrapInt64_eq_self (n : Int) (h1 : -(2 ^ 63) ≤ n) (h2 : n < 2 ^ 63) :
    wrapInt64 n = n := by
  unfold wrapInt64
  omega

lemma sub64_one (a : Nat) (h1 : 1 ≤ a) (h2 : a ≤ 2 ^ 64) : sub64 a 1 = a - 1 := by
  unfold sub64
  omega

/-- Closed form of the index-clearing loop: slots in
`(seqnum, csn]` at or above `sn1` are zeroed, the rest untouched. -/
lemma rollbackZeroLoop_eq (seqnum sn1 : Nat) : ∀ (csn : Nat) (idx : Nat → IdxRecord),
    rollbackZeroLoop seqnum sn1 csn idx =
      fun t => if seqnum < t ∧ sn1 ≤ t ∧ t ≤ csn then zeroIdxRecord else idx t := by
  intro csn
  induction csn using Nat.strong_induction_on with
  | _ csn ih =>
    intro idx
    rw [rollbackZeroLoop]
    split_ifs with h
    · rw [ih (csn - 1) (by omega)]
      funext t
      by_cases ht : t = csn
      · subst ht
        rw [if_neg (by omega), if_pos ⟨h.1, h.2, le_refl _⟩]
        simp [Function.update]
      · by_cases hcond : seqnum < t ∧ sn1 ≤ t ∧ t ≤ csn - 1
        · rw [if_pos hcond, if_pos ⟨hcond.1, hcond.2.1, by omega⟩]
        · rw [if_neg hcond, if_neg (by omega)]
          simp [Function.update, ht]
    · funext t
      rw [if_neg (by omega)]


/-- Closed form of `ldb_rollback` on a well-formed non-empty journal
when there is something to remove (`s < seqnum2`). -/
lemma ldb_rollback_eq (J : Journal) (T P : Nat → Nat) (s : Nat)
    (h1 : 1 ≤ J.state.seqnum1) (h12 : J.state.seqnum1 ≤ J.state.seqnum2)
    (h64 : J.state.seqnum2 < 2 ^ 64)
    (hidx : ∀ u, J.state.seqnum1 ≤ u → u ≤ J.state.seqnum2 → J.idx u = ⟨u, T u, P u⟩)
    (hT1 : T J.state.seqnum1 = J.state.timestamp1)
    (hP1 : P J.state.seqnum1 = headerSize)
    (hs : s < J.state.seqnum2) :
    ldb_rollback J s =
      (wrapInt64 ((J.state.seqnum2 : Int) - ((max s (J.state.seqnum1 - 1) : Nat) : Int)),
       { state := if s < J.state.seqnum1 then ⟨0, 0, 0, 0⟩
                  else { J.state with seqnum2 := s, timestamp2 := T s },
         dat := J.dat.filter (fun r => r.pos <
                  (if s < J.state.seqnum1 then headerSize else P (s + 1))),
         idx := fun t => if s < t ∧ J.state.seqnum1 ≤ t ∧ t ≤ J.state.seqnum2
                         then zeroIdxRecord else J.idx t,
         dat_end := if s < J.state.seqnum1 then headerSize else P (s + 1) }) := by
  simp only [ldb_rollback]
  rw [if_neg (by omega)]
  rw [sub64_one _ h1 (by omega)]
  by_cases hcase : s < J.state.seqnum1
  · rw [if_neg (by omega)]
    simp only []
    rw [rollbackZeroLoop_eq]
    rw [if_pos hcase, if_pos hcase, if_pos hcase]
  · push_neg at hcase
    rw [if_pos hcase]
    rw [ldb_read_record_idx_wf J T P s hidx hT1 hP1 h1 hcase (by omega)]
    rw [ldb_read_record_idx_wf J T P (s + 1) hidx hT1 hP1 h1 (by omega) (by omega)]
    simp only []
    rw [rollbackZeroLoop_eq]
    rw [if_neg (by omega), if_neg (by omega), if_neg (by omega)]


/-- A journal with seqnums 1..2^63 (constant timestamp 5); its removed
count under `rollback 0` does not fit in a C `long`. -/
def Jw : Journal :=
  { state := ⟨1, 5, 2 ^ 63, 5⟩, dat := [],
    idx := fun t => ⟨t, 5, headerSize + 24 * (t - 1)⟩, dat_end := headerSize }

/-- C3 (amended): `ldb_rollback s` returns 0 and leaves the journal
unchanged when the journal is empty or `s ≥ seqnum2`; when `s < seqnum1`
it removes all records (index slots of `[seqnum1, seqnum2]` zeroed, data
truncated to the header), clears the state and resets `dat_end` to the
header size; otherwise the new state is
`(seqnum1, timestamp1, s, timestamp of s)` and `dat_end` becomes the
offset of record `s + 1`.  The removed count `seqnum2 - max(s, seqnum1-1)`
is returned exactly when it fits in a signed 64-bit long, which the
hypothesis `seqnum2 < 2^63` guarantees; larger counts are returned
wrapped (see the counterexample). -/
theorem ldb_rollback_spec (J : Journal) (T P : Nat → Nat) (s : Nat)
    (h1 : 1 ≤ J.state.seqnum1) (h12 : J.state.seqnum1 ≤ J.state.seqnum2)
    (h63 : J.state.seqnum2 < 2 ^ 63)
    (hidx : ∀ u, J.state.seqnum1 ≤ u → u ≤ J.state.seqnum2 → J.idx u = ⟨u, T u, P u⟩)
    (hT1 : T J.state.seqnum1 = J.state.timestamp1)
    (hP1 : P J.state.seqnum1 = headerSize) :
    (∀ (K : Journal) (u : Nat), K.state.seqnum2 ≤ u → ldb_rollback K u = (0, K)) ∧
    (s < J.state.seqnum1 → s < J.state.seqnum2 →
      ldb_rollback J s =
        (((J.state.seqnum2 - (J.state.seqnum1 - 1) : Nat) : Int),
         { state := ⟨0, 0, 0, 0⟩,
           dat := J.dat.filter (fun r => r.pos < headerSize),
           idx := fun t => if s < t ∧ J.state.seqnum1 ≤ t ∧ t ≤ J.state.seqnum2
                           then zeroIdxRecord else J.idx t,
           dat_end := headerSize })) ∧
    (J.state.seqnum1 ≤ s → s < J.state.seqnum2 →
      ldb_rollback J s =
        (((J.state.seqnum2 - s : Nat) : Int),
         { state := ⟨J.state.seqnum1, J.state.timestamp1, s, T s⟩,
           dat := J.dat.filter (fun r => r.pos < P (s + 1)),
           idx := fun t => if s < t ∧ J.state.seqnum1 ≤ t ∧ t ≤ J.state.seqnum2
                           then zeroIdxRecord else J.idx t,
           dat_end := P (s + 1) })) := by
  refine ⟨?_, ?_, ?_⟩
  · intro K u h
    simp only [ldb_rollback]
    rw [if_pos h]
  · intro hlt hs
    rw [ldb_rollback_eq J T P s h1 h12 (by omega) hidx hT1 hP1 hs]
    simp only [if_pos hlt]
    rw [wrapInt64_eq_self _ (by omega) (by omega)]
    congr 1
    omega
  · intro hge hs
    rw [ldb_rollback_eq J T P s h1 h12 (by omega) hidx hT1 hP1 hs]
    simp only [if_neg (Nat.not_lt.mpr hge)]
    rw [wrapInt64_eq_self _ (by omega) (by omega)]
    congr 1
    omega

/-- Counterexample to C3 as stated: on the journal with seqnums
1..2^63, `rollback 0` removes 2^63 entries but returns the C `long`
value -2^63, not their count. -/
theorem ldb_rollback_count_counterexample :
    (Jw.state.seqnum2 - max 0 (Jw.state.seqnum1 - 1) : Nat) = 2 ^ 63 ∧
    (ldb_rollback Jw 0).fst = -(2 ^ 63) ∧
    (ldb_rollback Jw 0).fst ≠ ((Jw.state.seqnum2 - max 0 (Jw.state.seqnum1 - 1) : Nat) : Int) := by
  have h := ldb_rollback_eq Jw (fun _ => 5) (fun t => headerSize + 24 * (t - 1)) 0
    (by decide) (by decide) (by decide) (fun u _ _ => rfl) (by decide) (by decide) (by decide)
  have hfst : (ldb_rollback Jw 0).fst = -(2 ^ 63) := by
    rw [h]
    decide
  refine ⟨by decide, hfst, ?_⟩
  rw [hfst]
  decide

/-- Witness for C3 on the five-entry journal: `rollback 3` removes
entries 4 and 5 (count 2), the state becomes (1, 10, 3, 20) and
`dat_end` shrinks to the offset of record 4. -/
theorem ldb_rollback_spec_witness :
    Jt.state.seqnum1 ≤ 3 ∧ 3 < Jt.state.seqnum2 ∧
    ldb_rollback Jt 3 =
      (((Jt.state.seqnum2 - 3 : Nat) : Int),
       { state := ⟨Jt.state.seqnum1, Jt.state.timestamp1, 3, tsF 3⟩,
         dat := Jt.dat.filter (fun r => r.pos < headerSize + 32 * 3),
         idx := fun t => if 3 < t ∧ Jt.state.seqnum1 ≤ t ∧ t ≤ Jt.state.seqnum2
                         then zeroIdxRecord else Jt.idx t,
         dat_end := headerSize + 32 * 3 }) :=
  ⟨by decide, by decide,
   (ldb_rollback_spec Jt tsF (fun t => headerSize + 32 * (t - 1)) 3
     (by decide) (by decide) (by decide) (fun u _ _ => rfl) (by decide) (by decide)).2.2
     (by decide) (by decide)⟩

/-- Invariant of the binary-search loop in LOWER mode: starting from a
bracket `T sn1 < wts ≤ T sn2` the loop lands on the left edge of the
first timestamp `≥ wts`. -/
lemma searchLoop_lower (J : Journal) (T P : Nat → Nat) (wts : Nat)
    (hidx : ∀ u, J.state.seqnum1 ≤ u → u ≤ J.state.seqnum2 → J.idx u = ⟨u, T u, P u⟩)
    (hT1 : T J.state.seqnum1 = J.state.timestamp1)
    (hP1 : P J.state.seqnum1 = headerSize)
    (h1 : 1 ≤ J.state.seqnum1) (h63 : J.state.seqnum2 < 2 ^ 63) :
    ∀ (fuel sn1 sn2 : Nat),
      J.state.seqnum1 ≤ sn1 → sn2 ≤ J.state.seqnum2 → sn1 < sn2 →
      T sn1 < wts → wts ≤ T sn2 → sn2 - sn1 ≤ fuel →
      ∃ r, searchLoop J J.state SearchMode.lower wts fuel sn1 sn2 (T sn1) (T sn2) =
             (LDB_OK, r) ∧ sn1 < r ∧ r ≤ sn2 ∧ wts ≤ T r ∧ T (r - 1) < wts := by
  intro fuel
  induction fuel with
  | zero =>
    intro sn1 sn2 _ _ hlt _ _ hfuel
    omega
  | succ fuel ih =>
    intro sn1 sn2 hs1 hs2 hlt hts1 hts2 hfuel
    simp only [searchLoop]
    by_cases hcond : sn1 + 1 < sn2 ∧ T sn1 ≠ T sn2
    · rw [if_pos hcond]
      have hsum : (sn1 + sn2) % 2 ^ 64 = sn1 + sn2 := Nat.mod_eq_of_lt (by omega)
      rw [hsum]
      have hmid1 : sn1 < (sn1 + sn2) / 2 := by omega
      have hmid2 : (sn1 + sn2) / 2 < sn2 := by omega
      rw [ldb_read_record_idx_wf J T P _ hidx hT1 hP1 h1 (by omega) (by omega)]
      dsimp only
      by_cases hb : T ((sn1 + sn2) / 2) < wts
      · rw [if_pos hb]
        obtain ⟨r, hres, hr1, hr2, hr3, hr4⟩ :=
          ih ((sn1 + sn2) / 2) sn2 (by omega) hs2 hmid2 hb hts2 (by omega)
        exact ⟨r, hres, by omega, hr2, hr3, hr4⟩
      · rw [if_neg hb, if_pos (Or.inr trivial)]
        obtain ⟨r, hres, hr1, hr2, hr3, hr4⟩ :=
          ih sn1 ((sn1 + sn2) / 2) hs1 (by omega) hmid1 hts1 (Nat.le_of_not_lt hb) (by omega)
        exact ⟨r, hres, hr1, by omega, hr3, hr4⟩
    · rw [if_neg hcond]
      have hne : T sn1 ≠ T sn2 := by
        intro he
        rw [he] at hts1
        omega
      have hs : sn2 = sn1 + 1 := by
        rcases not_and_or.mp hcond with h | h
        · omega
        · exact absurd hne h
      refine ⟨sn2, rfl, by omega, le_refl _, hts2, ?_⟩
      rw [hs]
      simpa using hts1


/-- Invariant of the binary-search loop in UPPER mode: starting from a
bracket `T sn1 ≤ wts < T sn2` the loop lands on the left edge of the
first timestamp `> wts`. -/
lemma searchLoop_upper (J : Journal) (T P : Nat → Nat) (wts : Nat)
    (hidx : ∀ u, J.state.seqnum1 ≤ u → u ≤ J.state.seqnum2 → J.idx u = ⟨u, T u, P u⟩)
    (hT1 : T J.state.seqnum1 = J.state.timestamp1)
    (hP1 : P J.state.seqnum1 = headerSize)
    (h1 : 1 ≤ J.state.seqnum1) (h63 : J.state.seqnum2 < 2 ^ 63) :
    ∀ (fuel sn1 sn2 : Nat),
      J.state.seqnum1 ≤ sn1 → sn2 ≤ J.state.seqnum2 → sn1 < sn2 →
      T sn1 ≤ wts → wts < T sn2 → sn2 - sn1 ≤ fuel →
      ∃ r, searchLoop J J.state SearchMode.upper wts fuel sn1 sn2 (T sn1) (T sn2) =
             (LDB_OK, r) ∧ sn1 < r ∧ r ≤ sn2 ∧ wts < T r ∧ T (r - 1) ≤ wts := by
  intro fuel
  induction fuel with
  | zero =>
    intro sn1 sn2 _ _ hlt _ _ hfuel
    omega
  | succ fuel ih =>
    intro sn1 sn2 hs1 hs2 hlt hts1 hts2 hfuel
    simp only [searchLoop]
    by_cases hcond : sn1 + 1 < sn2 ∧ T sn1 ≠ T sn2
    · rw [if_pos hcond]
      have hsum : (sn1 + sn2) % 2 ^ 64 = sn1 + sn2 := Nat.mod_eq_of_lt (by omega)
      rw [hsum]
      have hmid1 : sn1 < (sn1 + sn2) / 2 := by omega
      have hmid2 : (sn1 + sn2) / 2 < sn2 := by omega
      rw [ldb_read_record_idx_wf J T P _ hidx hT1 hP1 h1 (by omega) (by omega)]
      dsimp only
      by_cases hb : T ((sn1 + sn2) / 2) < wts
      · rw [if_pos hb]
        obtain ⟨r, hres, hr1, hr2, hr3, hr4⟩ :=
          ih ((sn1 + sn2) / 2) sn2 (by omega) hs2 hmid2 (Nat.le_of_lt hb) hts2 (by omega)
        exact ⟨r, hres, by omega, hr2, hr3, hr4⟩
      · by_cases hb2 : wts < T ((sn1 + sn2) / 2)
        · rw [if_neg hb, if_pos (Or.inl hb2)]
          obtain ⟨r, hres, hr1, hr2, hr3, hr4⟩ :=
            ih sn1 ((sn1 + sn2) / 2) hs1 (by omega) hmid1 hts1 hb2 (by omega)
          exact ⟨r, hres, hr1, by omega, hr3, hr4⟩
        · rw [if_neg hb, if_neg (not_or.mpr ⟨hb2, by decide⟩)]
          obtain ⟨r, hres, hr1, hr2, hr3, hr4⟩ :=
            ih ((sn1 + sn2) / 2) sn2 (by omega) hs2 hmid2 (by omega) hts2 (by omega)
          exact ⟨r, hres, by omega, hr2, hr3, hr4⟩
    · rw [if_neg hcond]
      have hne : T sn1 ≠ T sn2 := by
        intro he
        rw [he] at hts1
        omega
      have hs : sn2 = sn1 + 1 := by
        rcases not_and_or.mp hcond with h | h
        · omega
        · exact absurd hne h
      refine ⟨sn2, rfl, by omega, le_refl _, hts2, ?_⟩
      rw [hs]
      simpa using hts1


/-- `ldb_search` in LOWER mode with the mode tests evaluated. -/
lemma ldb_search_lower_eq (J : Journal) (wts : Nat) :
    ldb_search J wts SearchMode.lower =
      (if J.state.seqnum1 = 0 then (LDB_ERR_NOT_FOUND, 0)
       else if J.state.timestamp2 < wts then (LDB_ERR_NOT_FOUND, 0)
       else if wts ≤ J.state.timestamp1 then (LDB_OK, J.state.seqnum1)
       else searchLoop J J.state SearchMode.lower wts
              (J.state.seqnum2 - J.state.seqnum1 + 1)
              J.state.seqnum1 J.state.seqnum2 J.state.timestamp1 J.state.timestamp2) := by
  simp [ldb_search]

/-- `ldb_search` in UPPER mode with the mode tests evaluated. -/
lemma ldb_search_upper_eq (J : Journal) (wts : Nat) :
    ldb_search J wts SearchMode.upper =
      (if J.state.seqnum1 = 0 then (LDB_ERR_NOT_FOUND, 0)
       else if J.state.timestamp2 ≤ wts then (LDB_ERR_NOT_FOUND, 0)
       else if wts < J.state.timestamp1 then (LDB_OK, J.state.seqnum1)
       else searchLoop J J.state SearchMode.upper wts
              (J.state.seqnum2 - J.state.seqnum1 + 1)
              J.state.seqnum1 J.state.seqnum2 J.state.timestamp1 J.state.timestamp2) := by
  simp [ldb_search]


/-- C1 (amended): on a well-formed open journal with non-decreasing
stored timestamps and `seqnum2 < 2^63` (so the uint64 midpoint
`(sn1+sn2)/2` of the binary search cannot overflow), `ldb_search` returns
not-found with output seqnum 0 on an empty journal or when the last
timestamp is `< ts` (LOWER) / `≤ ts` (UPPER); it returns `seqnum1` when
`ts ≤` first timestamp (LOWER) / `ts <` first timestamp (UPPER); and in
general it returns the least stored seqnum whose timestamp is `≥ ts`
(LOWER) / `> ts` (UPPER). -/
theorem ldb_search_spec (J : Journal) (T P : Nat → Nat) (wts : Nat)
    (h1 : 1 ≤ J.state.seqnum1) (h12 : J.state.seqnum1 ≤ J.state.seqnum2)
    (h63 : J.state.seqnum2 < 2 ^ 63)
    (hidx : ∀ u, J.state.seqnum1 ≤ u → u ≤ J.state.seqnum2 → J.idx u = ⟨u, T u, P u⟩)
    (hT1 : T J.state.seqnum1 = J.state.timestamp1)
    (hT2 : T J.state.seqnum2 = J.state.timestamp2)
    (hP1 : P J.state.seqnum1 = headerSize)
    (hmono : ∀ u v, J.state.seqnum1 ≤ u → u ≤ v → v ≤ J.state.seqnum2 → T u ≤ T v) :
    (∀ (K : Journal) (m : SearchMode) (w : Nat), K.state.seqnum1 = 0 →
        ldb_search K w m = (LDB_ERR_NOT_FOUND, 0)) ∧
    (J.state.timestamp2 < wts → ldb_search J wts SearchMode.lower = (LDB_ERR_NOT_FOUND, 0)) ∧
    (J.state.timestamp2 ≤ wts → ldb_search J wts SearchMode.upper = (LDB_ERR_NOT_FOUND, 0)) ∧
    (wts ≤ J.state.timestamp1 → ldb_search J wts SearchMode.lower = (LDB_OK, J.state.seqnum1)) ∧
    (wts < J.state.timestamp1 → ldb_search J wts SearchMode.upper = (LDB_OK, J.state.seqnum1)) ∧
    (wts ≤ J.state.timestamp2 →
      ∃ r, ldb_search J wts SearchMode.lower = (LDB_OK, r) ∧
        J.state.seqnum1 ≤ r ∧ r ≤ J.state.seqnum2 ∧ wts ≤ T r ∧
        ∀ q, J.state.seqnum1 ≤ q → q < r → T q < wts) ∧
    (wts < J.state.timestamp2 →
      ∃ r, ldb_search J wts SearchMode.upper = (LDB_OK, r) ∧
        J.state.seqnum1 ≤ r ∧ r ≤ J.state.seqnum2 ∧ wts < T r ∧
        ∀ q, J.state.seqnum1 ≤ q → q < r → T q ≤ wts) := by
  have hts12 : J.state.timestamp1 ≤ J.state.timestamp2 := by
    rw [← hT1, ← hT2]
    exact hmono _ _ (le_refl _) h12 (le_refl _)
  refine ⟨?_, ?_, ?_, ?_, ?_, ?_, ?_⟩
  · intro K m w h0
    simp only [ldb_search]
    rw [if_pos h0]
  · intro h
    rw [ldb_search_lower_eq, if_neg (by omega), if_pos h]
  · intro h
    rw [ldb_search_upper_eq, if_neg (by omega), if_pos h]
  · intro h
    rw [ldb_search_lower_eq, if_neg (by omega), if_neg (by omega), if_pos h]
  · intro h
    rw [ldb_search_upper_eq, if_neg (by omega), if_neg (by omega), if_pos h]
  · intro h
    by_cases hfirst : wts ≤ J.state.timestamp1
    · refine ⟨J.state.seqnum1, ?_, le_refl _, h12, ?_, ?_⟩
      · rw [ldb_search_lower_eq, if_neg (by omega), if_neg (by omega), if_pos hfirst]
      · rw [hT1]
        exact hfirst
      · intro q hq1 hq2
        omega
    · have hlt : J.state.seqnum1 < J.state.seqnum2 := by
        rcases Nat.eq_or_lt_of_le h12 with he | hl
        · exfalso
          rw [he, hT2] at hT1
          omega
        · exact hl
      obtain ⟨r, hres, hr1, hr2, hr3, hr4⟩ :=
        searchLoop_lower J T P wts hidx hT1 hP1 h1 h63
          (J.state.seqnum2 - J.state.seqnum1 + 1) J.state.seqnum1 J.state.seqnum2
          (le_refl _) (le_refl _) hlt (by omega) (by rw [hT2]; exact h) (by omega)
      rw [hT1, hT2] at hres
      refine ⟨r, ?_, by omega, hr2, hr3, ?_⟩
      · rw [ldb_search_lower_eq, if_neg (by omega), if_neg (by omega), if_neg hfirst]
        exact hres
      · intro q hq1 hq2
        have : T q ≤ T (r - 1) := hmono q (r - 1) hq1 (by omega) (by omega)
        omega
  · intro h
    by_cases hfirst : wts < J.state.timestamp1
    · refine ⟨J.state.seqnum1, ?_, le_refl _, h12, ?_, ?_⟩
      · rw [ldb_search_upper_eq, if_neg (by omega), if_neg (by omega), if_pos hfirst]
      · rw [hT1]
        exact hfirst
      · intro q hq1 hq2
        omega
    · have hlt : J.state.seqnum1 < J.state.seqnum2 := by
        rcases Nat.eq_or_lt_of_le h12 with he | hl
        · exfalso
          rw [he, hT2] at hT1
          omega
        · exact hl
      obtain ⟨r, hres, hr1, hr2, hr3, hr4⟩ :=
        searchLoop_upper J T P wts hidx hT1 hP1 h1 h63
          (J.state.seqnum2 - J.state.seqnum1 + 1) J.state.seqnum1 J.state.seqnum2
          (le_refl _) (le_refl _) hlt (by omega) (by rw [hT2]; exact h) (by omega)
      rw [hT1, hT2] at hres
      refine ⟨r, ?_, by omega, hr2, hr3, ?_⟩
      · rw [ldb_search_upper_eq, if_neg (by omega), if_neg (by omega), if_neg hfirst]
        exact hres
      · intro q hq1 hq2
        have : T q ≤ T (r - 1) := hmono q (r - 1) hq1 (by omega) (by omega)
        omega


/-- A three-entry journal with seqnums `2^63 .. 2^63 + 2` and
timestamps 10, 20, 30: the binary-search midpoint `(sn1 + sn2) / 2`
overflows `uint64_t` on it. -/
def Jo : Journal :=
  { state := ⟨2 ^ 63, 10, 2 ^ 63 + 2, 30⟩, dat := [],
    idx := fun s =>
      ⟨s, if s ≤ 2 ^ 63 then 10 else if s = 2 ^ 63 + 1 then 20 else 30,
       headerSize + 24 * (s - 2 ^ 63)⟩,
    dat_end := headerSize + 3 * 24 }

/-- Counterexample to C1 as stated: on the open non-empty journal `Jo`
(timestamps non-decreasing), the least stored seqnum with timestamp
`≥ 20` is `2^63 + 1`, but `ldb_search 20 LOWER` returns `(LDB_ERR, 0)`:
the `uint64_t` midpoint `(sn1 + sn2) / 2` wraps to a seqnum below
`seqnum1` and the index read fails. -/
theorem ldb_search_overflow_counterexample :
    Jo.state.seqnum1 ≠ 0 ∧
    (Jo.idx (2 ^ 63)).timestamp = 10 ∧
    (Jo.idx (2 ^ 63 + 1)).timestamp = 20 ∧
    (Jo.idx (2 ^ 63 + 2)).timestamp = 30 ∧
    Jo.state = ⟨2 ^ 63, 10, 2 ^ 63 + 2, 30⟩ ∧
    ldb_search Jo 20 SearchMode.lower = (LDB_ERR, 0) ∧
    ldb_search Jo 20 SearchMode.lower ≠ (LDB_OK, 2 ^ 63 + 1) := by decide

/-- Witness for C1 on the five-entry journal (timestamps
10,10,20,20,30): `search 20 LOWER` finds the least seqnum with
timestamp `≥ 20`, namely 3. -/
theorem ldb_search_spec_witness :
    (20 : Nat) ≤ Jt.state.timestamp2 ∧
    (∃ r, ldb_search Jt 20 SearchMode.lower = (LDB_OK, r) ∧
      Jt.state.seqnum1 ≤ r ∧ r ≤ Jt.state.seqnum2 ∧ 20 ≤ tsF r ∧
      ∀ q, Jt.state.seqnum1 ≤ q → q < r → tsF q < 20) :=
  ⟨by decide,
   (ldb_search_spec Jt tsF (fun s => headerSize + 32 * (s - 1)) 20
      (by decide) (by decide) (by decide) (fun u _ _ => rfl)
      (by decide) (by decide) (by decide)
      (fun u v hu huv hv => by
        unfold tsF
        split_ifs <;> omega)).2.2.2.2.2.1 (by decide)⟩

end Ldb
